import Mathlib

/-
Verification of the ascii-earth globe renderer (src/ascii-earth.py).

The Python source is shallowly embedded below.  Python float arithmetic is
modelled as exact rational arithmetic (ℚ); Python's `%` on rationals with a
positive divisor is `pymod`, and `int()` truncation toward zero is `pyint`.
The grid of glyphs produced by the renderer is a `List (List Char)`; the
process-global `LAND_CACHE` dictionary is threaded explicitly as a function
from `(width, height)` keys to optional grids.  The external land-shape data
(cartopy/shapely point-in-polygon tests) is abstracted as a boolean predicate
`inLand lon lat`, exactly the role `any(land.contains(point) ...)` plays in
the source.
-/

/-- Python `a % b` on rationals: for `b > 0` the result lies in `[0, b)`
(Python's float modulo takes the sign of the divisor). -/
def pymod (a b : ℚ) : ℚ := a - b * ⌊a / b⌋

/-- Python `int()` applied to a rational: truncation toward zero. -/
def pyint (q : ℚ) : ℤ := if 0 ≤ q then ⌊q⌋ else ⌈q⌉

/-- `ASCII_SHADES = " .:-=+*#%@"` (line 10): the glyph ramp, ordered from the
glyph used at angular distance 0 from the sun (index 0, the blank) to the one
used at angular distance 180° (index 9). -/
def ASCII_SHADES : List Char := [' ', '.', ':', '-', '=', '+', '*', '#', '%', '@']

/-- Lines 21-23 of `lat_lon_to_screen`: shift the longitude by the rotation
offset, reduce modulo 360, and pull values above 180 down by 360. -/
def lon_shifted (lon longitude_shift : ℚ) : ℚ :=
  let l0 := pymod (lon + longitude_shift) 360
  if l0 > 180 then l0 - 360 else l0

/-- `lat_lon_to_screen(lat, lon, width, height, longitude_shift)`
(lines 19-27): returns the screen cell `(x, y)` with
`x = int(((lon_shifted + 180) / 360) * width) % width` and
`y = int(((90 - lat) / 180) * height)` clamped into `[0, height-1]`. -/
def lat_lon_to_screen (lat lon : ℚ) (width height : ℕ) (longitude_shift : ℚ) : ℤ × ℤ :=
  let x : ℤ := pyint (((lon_shifted lon longitude_shift + 180) / 360) * width) % (width : ℤ)
  let y : ℤ := pyint (((90 - lat) / 180) * height)
  (x, max 0 (min y ((height : ℤ) - 1)))

/-- A grid of glyphs, as `numpy`'s `(height, width)` array of single
characters: a list of `height` rows, each a list of `width` characters. -/
abbrev Grid := List (List Char)

/-- The process-global `LAND_CACHE` dictionary (line 17), threaded explicitly:
a map from `(width, height)` keys to the grid cached for that resolution. -/
abbrev Cache := (ℕ × ℕ) → Option Grid

/-- `LAND_CACHE = {}`: the initial, empty cache. -/
def empty_cache : Cache := fun _ => none

/-- `np.linspace a b n` (lines 43-44): `n` evenly spaced samples from `a` to
`b`, endpoints included (faithful for `n ≥ 2`, the only shape used here). -/
def linspace (a b : ℚ) (n : ℕ) : List ℚ :=
  (List.range n).map (fun i => a + (b - a) * i / ((n : ℚ) - 1))

/-- `land_cache[y, x] = c` (line 53): write one cell of the grid.  The
indices produced by `lat_lon_to_screen` are always in range, so the
out-of-range behaviour (no-op here) is never exercised. -/
def setCell (g : Grid) (y x : ℤ) (c : Char) : Grid :=
  g.set y.toNat ((g.getD y.toNat []).set x.toNat c)

/-- The cache-miss body of `generate_globe` (lines 36-54): start from an
all-blank grid, sample a `2·height × 2·width` lattice of `(lat, lon)` points,
and mark `#` at `lat_lon_to_screen lat lon width height longitude_shift` for
every sample the point-in-polygon test `inLand` classifies as land.  `inLand
lon lat` abstracts `any(land.contains(sgeom.Point(lon, lat)) for land in
land_shapes)` (lines 48-51), whose shape data is external to the program. -/
def rasterize (inLand : ℚ → ℚ → Bool) (longitude_shift : ℚ) (width height : ℕ) : Grid :=
  (linspace (-90) 90 (height * 2)).foldl (fun g lat =>
    (linspace (-180) 180 (width * 2)).foldl (fun g lon =>
      if inLand lon lat then
        setCell g (lat_lon_to_screen lat lon width height longitude_shift).2
          (lat_lon_to_screen lat lon width height longitude_shift).1 '#'
      else g) g)
    (List.replicate height (List.replicate width ' '))

/-- `generate_globe(longitude_shift, width, height)` (lines 29-57) with the
global `LAND_CACHE` passed and returned explicitly.  On a hit the cached grid
is returned (as a value — the `np.copy` on line 57 makes the returned array
independent of the cache); on a miss the rasterized grid is stored under
`(width, height)` and returned. -/
def generate_globe (inLand : ℚ → ℚ → Bool) (longitude_shift : ℚ) (width height : ℕ)
    (cache : Cache) : Grid × Cache :=
  match cache (width, height) with
  | some land_cache => (land_cache, cache)
  | none =>
      let land_cache := rasterize inLand longitude_shift width height
      (land_cache, fun k => if k = (width, height) then some land_cache else cache k)

/-- `sun_longitude = (now_utc.hour * 15) % 360` (line 62), `hour` being the
integer hour of day read from the clock. -/
def sun_longitude (hour : ℕ) : ℚ := ((hour * 15) % 360 : ℕ)

/-- `lon = ((x / width) * 360 - 180 + longitude_shift) % 360` (line 66): the
geographic longitude displayed at screen column `x` under the live rotation. -/
def displayed_lon (x width : ℕ) (longitude_shift : ℚ) : ℚ :=
  pymod (((x : ℚ) / width) * 360 - 180 + longitude_shift) 360

/-- Lines 67-68: `brightness = abs(lon - sun_longitude) / 180` and
`shade_index = min(int(brightness * (len(ASCII_SHADES) - 1)), len(ASCII_SHADES) - 1)`. -/
def shade_index (lon sun : ℚ) : ℤ :=
  let brightness := |lon - sun| / 180
  min (pyint (brightness * ((ASCII_SHADES.length : ℚ) - 1))) ((ASCII_SHADES.length : ℤ) - 1)

/-- The inner loop of `apply_day_night_shading` (lines 65-69) on one row:
for each column `x < width`, a non-blank cell becomes the ramp glyph at
`shade_index` for that column's displayed longitude, and a blank cell stays
blank. -/
def shadeRow (longitude_shift : ℚ) (width : ℕ) (sun : ℚ) (row : List Char) : List Char :=
  row.mapIdx (fun x c =>
    if x < width then
      if c ≠ ' ' then
        ASCII_SHADES.getD (shade_index (displayed_lon x width longitude_shift) sun).toNat ' '
      else ' '
    else c)

/-- `apply_day_night_shading(globe, longitude_shift, width)` (lines 59-71),
with the clock reading `now_utc.hour` passed in as `hour`. -/
def apply_day_night_shading (globe : Grid) (longitude_shift : ℚ) (width hour : ℕ) : Grid :=
  globe.map (shadeRow longitude_shift width (sun_longitude hour))

/-- A rendered frame: the rows of `globe_strings` (line 89), each row the
sequence of glyphs joined into one screen line. -/
abbrev Frame := List (List Char)

/-- The frame-differencing step of `render_globe` (lines 92-99): with no
previous frame (`prev_globe_strings` is `None`, or empty, which Python's
truthiness test also sends to the full-redraw branch) every row of the
current frame is redrawn; otherwise exactly the row indices where the
previous and current rows differ are redrawn. -/
def diff_rows (previous : Option Frame) (current : Frame) : List ℕ :=
  match previous with
  | some prev =>
      if prev = [] then List.range current.length
      else (List.range current.length).filter (fun i => decide (prev.getD i [] ≠ current.getD i []))
  | none => List.range current.length

/-- Land/ocean glyph invariant for a single cell: blank (ocean) or `#` (land). -/
def cellOK (c : Char) : Prop := c = ' ' ∨ c = '#'

/-- Every cell of the grid is blank or `#`. -/
def gridOK (g : Grid) : Prop := ∀ row ∈ g, ∀ c ∈ row, cellOK c

/-- Every grid stored in the cache satisfies `gridOK`. -/
def cacheOK (cache : Cache) : Prop := ∀ k g, cache k = some g → gridOK g

/-- A concrete shape set whose land is exactly the meridian `lon = 60` — one
of the longitude samples of the `width = 2` lattice.  Used to exercise the
rasterizer on a small input. -/
def land_only_at_60 : ℚ → ℚ → Bool := fun lon _ => decide (lon = 60)

lemma pymod_nonneg (a b : ℚ) (hb : 0 < b) : 0 ≤ pymod a b := by
  unfold pymod
  have h1 : ((⌊a / b⌋ : ℚ)) ≤ a / b := Int.floor_le _
  have h3 : b * (a / b) = a := by field_simp
  have h4 : b * ((⌊a / b⌋ : ℚ)) ≤ b * (a / b) := mul_le_mul_of_nonneg_left h1 hb.le
  linarith

lemma pymod_lt (a b : ℚ) (hb : 0 < b) : pymod a b < b := by
  unfold pymod
  have h2 : a / b < (⌊a / b⌋ : ℚ) + 1 := Int.lt_floor_add_one _
  have h3 : b * (a / b) = a := by field_simp
  have h4 : b * (a / b) < b * ((⌊a / b⌋ : ℚ) + 1) := by
    exact mul_lt_mul_of_pos_left h2 hb
  nlinarith

/-- Claim C9: for every real longitude and real rotation offset, the shifted
longitude computed on lines 21-23 (modulo 360 followed by the sign
correction) lies in the canonical half-open range `(-180, 180]`. -/
theorem C9_lon_shifted_canonical_range (lon longitude_shift : ℚ) :
    -180 < lon_shifted lon longitude_shift ∧ lon_shifted lon longitude_shift ≤ 180 := by
  unfold lon_shifted
  have h0 : 0 ≤ pymod (lon + longitude_shift) 360 := pymod_nonneg _ _ (by norm_num)
  have h1 : pymod (lon + longitude_shift) 360 < 360 := pymod_lt _ _ (by norm_num)
  dsimp only
  split_ifs with h
  · constructor <;> [linarith; linarith]
  · constructor <;> [linarith; linarith]

/-- Claim C1: for every latitude in `[-90, 90]`, every longitude, every
rotation offset, and all positive `width` and `height`, the screen cell
`(col, row)` returned by `lat_lon_to_screen` satisfies `0 ≤ col < width`
and `0 ≤ row < height`. -/
theorem C1_mapper_in_bounds (lat lon longitude_shift : ℚ) (width height : ℕ)
    (hlat₁ : -90 ≤ lat) (hlat₂ : lat ≤ 90) (hw : 0 < width) (hh : 0 < height) :
    0 ≤ (lat_lon_to_screen lat lon width height longitude_shift).1 ∧
    (lat_lon_to_screen lat lon width height longitude_shift).1 < (width : ℤ) ∧
    0 ≤ (lat_lon_to_screen lat lon width height longitude_shift).2 ∧
    (lat_lon_to_screen lat lon width height longitude_shift).2 < (height : ℤ) := by
  have hwZ : (0 : ℤ) < (width : ℤ) := by exact_mod_cast hw
  have hhZ : (0 : ℤ) < (height : ℤ) := by exact_mod_cast hh
  refine ⟨?_, ?_, ?_, ?_⟩
  · exact Int.emod_nonneg _ (ne_of_gt hwZ)
  · exact Int.emod_lt_of_pos _ hwZ
  · exact le_max_left _ _
  · exact max_lt hhZ (lt_of_le_of_lt (min_le_right _ _) (sub_one_lt _))

/-- Witness for C1 at `lat = 0, lon = 0, rotation = 0, width = 20, height = 10`. -/
theorem C1_mapper_in_bounds_witness :
    ((-90 : ℚ) ≤ 0 ∧ (0 : ℚ) ≤ 90 ∧ 0 < 20 ∧ 0 < 10) ∧
    (0 ≤ (lat_lon_to_screen 0 0 20 10 0).1 ∧
     (lat_lon_to_screen 0 0 20 10 0).1 < (20 : ℤ) ∧
     0 ≤ (lat_lon_to_screen 0 0 20 10 0).2 ∧
     (lat_lon_to_screen 0 0 20 10 0).2 < (10 : ℤ)) :=
  ⟨by norm_num,
   C1_mapper_in_bounds 0 0 0 20 10 (by norm_num) (by norm_num) (by norm_num) (by norm_num)⟩

/-- Claim C5: for every shape set and every pair of rotation offsets, two
calls to `generate_globe` at the same `(width, height)` — the second seeing
the cache produced by the first — return equal land grids: whatever the
first call did, the second is a cache hit returning the stored
classification. -/
theorem C5_rasterizer_idempotent (inLand : ℚ → ℚ → Bool) (r₁ r₂ : ℚ)
    (width height : ℕ) (cache : Cache) :
    (generate_globe inLand r₂ width height (generate_globe inLand r₁ width height cache).2).1 =
      (generate_globe inLand r₁ width height cache).1 := by
  cases hkey : cache (width, height) with
  | some g => simp [generate_globe, hkey]
  | none => simp [generate_globe, hkey]

/-- Claim C6: the grid handed back by `generate_globe` is independent of the
cache (the `np.copy` on line 57).  For a key already cached as `g`, the call
returns `g`, the post-call cache still stores `g` under that key, and after
the caller has done anything at all with its returned copy (e.g. overlaid
shading on it), a later call at the same key still returns the original
unshaded classification `g`. -/
theorem C6_returned_grid_is_fresh_copy (inLand : ℚ → ℚ → Bool) (cache : Cache)
    (width height : ℕ) (g : Grid) (r₁ r₂ : ℚ)
    (hc : cache (width, height) = some g) :
    (generate_globe inLand r₁ width height cache).1 = g ∧
    ((generate_globe inLand r₁ width height cache).2) (width, height) = some g ∧
    (generate_globe inLand r₂ width height
      ((generate_globe inLand r₁ width height cache).2)).1 = g := by
  simp [generate_globe, hc]

/-- Witness for C6 on a one-cell cache holding the single-land-cell grid. -/
theorem C6_returned_grid_is_fresh_copy_witness :
    ((fun k => if k = ((1 : ℕ), (1 : ℕ)) then some [['#']] else none : Cache) (1, 1)
        = some [['#']]) ∧
    ((generate_globe (fun _ _ => false) 0 1 1
        (fun k => if k = ((1 : ℕ), (1 : ℕ)) then some [['#']] else none)).1 = [['#']] ∧
     ((generate_globe (fun _ _ => false) 0 1 1
        (fun k => if k = ((1 : ℕ), (1 : ℕ)) then some [['#']] else none)).2) (1, 1)
        = some [['#']] ∧
     (generate_globe (fun _ _ => false) 7 1 1
        ((generate_globe (fun _ _ => false) 0 1 1
          (fun k => if k = ((1 : ℕ), (1 : ℕ)) then some [['#']] else none)).2)).1 = [['#']]) :=
  ⟨rfl, C6_returned_grid_is_fresh_copy (fun _ _ => false) _ 1 1 [['#']] 0 7 rfl⟩

lemma foldl_preserve {α β : Type} (P : α → Prop) (f : α → β → α)
    (hf : ∀ a b, P a → P (f a b)) : ∀ (l : List β) (a : α), P a → P (l.foldl f a)
  | [], _, ha => ha
  | b :: l, a, ha => foldl_preserve P f hf l (f a b) (hf a b ha)

lemma gridOK_setCell (g : Grid) (y x : ℤ) (hg : gridOK g) : gridOK (setCell g y x '#') := by
  intro row hrow c hc
  unfold setCell at hrow
  rcases List.mem_or_eq_of_mem_set hrow with h | h
  · exact hg row h c hc
  · subst h
    rcases List.mem_or_eq_of_mem_set hc with h2 | h2
    · by_cases hlen : y.toNat < g.length
      · rw [List.getD_eq_getElem _ _ hlen] at h2
        exact hg _ (List.getElem_mem hlen) c h2
      · rw [List.getD_eq_default _ _ (Nat.le_of_not_lt hlen)] at h2
        cases h2
    · exact Or.inr h2

lemma gridOK_rasterize (inLand : ℚ → ℚ → Bool) (r : ℚ) (width height : ℕ) :
    gridOK (rasterize inLand r width height) := by
  unfold rasterize
  apply foldl_preserve
  · intro g lat hg
    refine foldl_preserve _ _ ?_ _ g hg
    intro g' lon hg'
    by_cases hin : inLand lon lat
    · simpa [hin] using gridOK_setCell g' _ _ hg'
    · simpa [hin] using hg'
  · intro row hrow c hc
    rw [List.eq_of_mem_replicate hrow] at hc
    exact Or.inl (List.eq_of_mem_replicate hc)

/-- Claim C10: starting from any cache all of whose entries use only the
blank and `#` glyphs (so in particular from the empty `LAND_CACHE`), every
grid `generate_globe` returns contains only `' '` (ocean) and `'#'` (land),
and the cache it leaves behind again satisfies the same invariant — the
invariant `apply_day_night_shading` relies on to tell land from ocean by
testing for `' '`. -/
theorem C10_grid_glyphs_blank_or_hash (inLand : ℚ → ℚ → Bool) (r : ℚ)
    (width height : ℕ) (cache : Cache) (hc : cacheOK cache) :
    gridOK (generate_globe inLand r width height cache).1 ∧
    cacheOK (generate_globe inLand r width height cache).2 := by
  cases hkey : cache (width, height) with
  | some g =>
    refine ⟨?_, ?_⟩
    · simpa [generate_globe, hkey] using hc _ _ hkey
    · simpa [generate_globe, hkey] using hc
  | none =>
    refine ⟨?_, ?_⟩
    · simpa [generate_globe, hkey] using gridOK_rasterize inLand r width height
    · simp only [generate_globe, hkey]
      intro k g hg
      by_cases hk : k = (width, height)
      · simp only [hk, if_pos rfl] at hg
        cases hg
        exact gridOK_rasterize inLand r width height
      · simp only [if_neg hk] at hg
        exact hc _ _ hg

/-- Witness for C10: the empty cache satisfies the invariant, and so does the
grid produced for an all-ocean shape set at 1×1. -/
theorem C10_grid_glyphs_blank_or_hash_witness :
    cacheOK empty_cache ∧
    gridOK (generate_globe (fun _ _ => false) 0 1 1 empty_cache).1 :=
  ⟨fun _ _ hg => Option.noConfusion hg,
   (C10_grid_glyphs_blank_or_hash (fun _ _ => false) 0 1 1 empty_cache
      (fun _ _ hg => Option.noConfusion hg)).1⟩

lemma getD_map_grid (f : List Char → List Char) (g : Grid) (y : ℕ) (hy : y < g.length) :
    (g.map f).getD y [] = f (g.getD y []) := by
  simp [List.getD_eq_getElem?_getD, List.getElem?_map, List.getElem?_eq_getElem hy]

lemma getD_mapIdx (f : ℕ → Char → Char) (row : List Char) (x : ℕ) (hx : x < row.length) :
    (row.mapIdx f).getD x ' ' = f x (row.getD x ' ') := by
  have hx' : x < (row.mapIdx f).length := by simpa [List.length_mapIdx] using hx
  rw [List.getD_eq_getElem _ _ hx', List.getElem_mapIdx, List.getD_eq_getElem _ _ hx]

lemma shading_cell (globe : Grid) (shift : ℚ) (width hour y x : ℕ)
    (hy : y < globe.length) (hx : x < (globe.getD y []).length) (hxw : x < width) :
    ((apply_day_night_shading globe shift width hour).getD y []).getD x ' ' =
      (if (globe.getD y []).getD x ' ' ≠ ' ' then
        ASCII_SHADES.getD
          (shade_index (displayed_lon x width shift) (sun_longitude hour)).toNat ' '
      else ' ') := by
  unfold apply_day_night_shading shadeRow
  rw [getD_map_grid _ _ _ hy, getD_mapIdx _ _ _ hx]
  simp [hxw]

lemma sun_longitude_nonneg (hour : ℕ) : 0 ≤ sun_longitude hour := by
  unfold sun_longitude
  positivity

lemma sun_longitude_lt (hour : ℕ) : sun_longitude hour < 360 := by
  unfold sun_longitude
  exact_mod_cast Nat.mod_lt _ (by norm_num)

lemma displayed_lon_nonneg (x width : ℕ) (shift : ℚ) : 0 ≤ displayed_lon x width shift := by
  unfold displayed_lon
  exact pymod_nonneg _ _ (by norm_num)

lemma displayed_lon_lt (x width : ℕ) (shift : ℚ) : displayed_lon x width shift < 360 := by
  unfold displayed_lon
  exact pymod_lt _ _ (by norm_num)

lemma shade_index_eq_zero (lon sun : ℚ) (h : lon = sun) : shade_index lon sun = 0 := by
  subst h
  norm_num [shade_index, pyint, ASCII_SHADES]

lemma shade_index_antipode (lon sun : ℚ) (h0 : 0 ≤ lon) (h1 : lon < 360)
    (h2 : 0 ≤ sun) (h3 : sun < 360) (hd : pymod (lon - sun) 360 = 180) :
    shade_index lon sun = 9 := by
  have habs : |lon - sun| = 180 := by
    unfold pymod at hd
    set k := ⌊(lon - sun) / 360⌋ with hk
    have hksum : lon - sun = 180 + 360 * (k : ℚ) := by linarith
    have hk1 : (-2 : ℤ) < k := by
      by_contra hcon
      push_neg at hcon
      have hcon' : (k : ℚ) ≤ -2 := by exact_mod_cast hcon
      linarith
    have hk2 : k < 1 := by
      by_contra hcon
      push_neg at hcon
      have hcon' : (1 : ℚ) ≤ (k : ℚ) := by exact_mod_cast hcon
      linarith
    interval_cases k
    · rw [hksum]; norm_num
    · rw [hksum]; norm_num
  unfold shade_index
  rw [habs]
  norm_num [pyint, ASCII_SHADES]

/-- Claim C3: at a land cell whose displayed longitude is exactly 180° from
the sub-solar longitude, the shading engine emits the last glyph of the ramp
(`ASCII_SHADES[9] = '@'`), the one representing the darkest (midnight) side:
there the angular distance gives brightness exactly 1, which quantizes to the
top ramp index. -/
theorem C3_antipode_darkest_glyph (globe : Grid) (shift : ℚ) (width hour y x : ℕ)
    (hy : y < globe.length) (hx : x < (globe.getD y []).length) (hxw : x < width)
    (hland : (globe.getD y []).getD x ' ' ≠ ' ')
    (hant : pymod (displayed_lon x width shift - sun_longitude hour) 360 = 180) :
    ((apply_day_night_shading globe shift width hour).getD y []).getD x ' ' =
      ASCII_SHADES.getD (ASCII_SHADES.length - 1) ' ' := by
  rw [shading_cell globe shift width hour y x hy hx hxw, if_pos hland]
  rw [shade_index_antipode _ _ (displayed_lon_nonneg x width shift)
    (displayed_lon_lt x width shift) (sun_longitude_nonneg hour) (sun_longitude_lt hour) hant]
  rfl

/-- Witness for C3: a single land cell, width 1, rotation 0, hour 0 — the
displayed longitude is 180, the sub-solar longitude 0, and the cell is
rendered as the darkest glyph. -/
theorem C3_antipode_darkest_glyph_witness :
    pymod (displayed_lon 0 1 0 - sun_longitude 0) 360 = 180 ∧
    ((apply_day_night_shading [['#']] 0 1 0).getD 0 []).getD 0 ' ' =
      ASCII_SHADES.getD (ASCII_SHADES.length - 1) ' ' :=
  ⟨by norm_num [displayed_lon, sun_longitude, pymod],
   C3_antipode_darkest_glyph [['#']] 0 1 0 0 0 (by norm_num) (by norm_num) (by norm_num)
     (by decide) (by norm_num [displayed_lon, sun_longitude, pymod])⟩

/-- Claim C4: at a cell whose displayed longitude equals the sub-solar
longitude, the shading engine emits the first glyph of the ramp
(`ASCII_SHADES[0]`, the glyph for the brightest, directly-lit column) when
the cell is land, and the blank glyph when the cell is ocean. -/
theorem C4_subsolar_brightest_glyph (globe : Grid) (shift : ℚ) (width hour y x : ℕ)
    (hy : y < globe.length) (hx : x < (globe.getD y []).length) (hxw : x < width)
    (hsun : displayed_lon x width shift = sun_longitude hour) :
    ((globe.getD y []).getD x ' ' ≠ ' ' →
      ((apply_day_night_shading globe shift width hour).getD y []).getD x ' ' =
        ASCII_SHADES.getD 0 ' ') ∧
    ((globe.getD y []).getD x ' ' = ' ' →
      ((apply_day_night_shading globe shift width hour).getD y []).getD x ' ' = ' ') := by
  rw [shading_cell globe shift width hour y x hy hx hxw]
  constructor
  · intro hland
    rw [if_pos hland, shade_index_eq_zero _ _ hsun]
    rfl
  · intro hocean
    rw [if_neg (not_not_intro hocean)]

/-- Witness for C4: width 1, rotation 180, hour 0 — the displayed longitude
equals the sub-solar longitude 0; a land cell renders as `ASCII_SHADES[0]`
and an ocean cell stays blank. -/
theorem C4_subsolar_brightest_glyph_witness :
    displayed_lon 0 1 180 = sun_longitude 0 ∧
    ((apply_day_night_shading [['#']] 180 1 0).getD 0 []).getD 0 ' ' =
      ASCII_SHADES.getD 0 ' ' ∧
    ((apply_day_night_shading [[' ']] 180 1 0).getD 0 []).getD 0 ' ' = ' ' :=
  ⟨by norm_num [displayed_lon, sun_longitude, pymod],
   (C4_subsolar_brightest_glyph [['#']] 180 1 0 0 0 (by norm_num) (by norm_num)
      (by norm_num) (by norm_num [displayed_lon, sun_longitude, pymod])).1 (by decide),
   (C4_subsolar_brightest_glyph [[' ']] 180 1 0 0 0 (by norm_num) (by norm_num)
      (by norm_num) (by norm_num [displayed_lon, sun_longitude, pymod])).2 (by decide)⟩

/-- Claim C7: an ocean (blank) cell of the input grid is rendered blank by
the shading engine, whatever brightness its column received. -/
theorem C7_ocean_never_shaded (globe : Grid) (shift : ℚ) (width hour y x : ℕ)
    (hy : y < globe.length) (hx : x < (globe.getD y []).length) (hxw : x < width)
    (hocean : (globe.getD y []).getD x ' ' = ' ') :
    ((apply_day_night_shading globe shift width hour).getD y []).getD x ' ' = ' ' := by
  rw [shading_cell globe shift width hour y x hy hx hxw]
  rw [if_neg (not_not_intro hocean)]

/-- Witness for C7: a single ocean cell stays blank. -/
theorem C7_ocean_never_shaded_witness :
    (([[' ']] : Grid).getD 0 []).getD 0 ' ' = ' ' ∧
    ((apply_day_night_shading [[' ']] 3 1 12).getD 0 []).getD 0 ' ' = ' ' :=
  ⟨by decide,
   C7_ocean_never_shaded [[' ']] 3 1 12 0 0 (by norm_num) (by norm_num) (by norm_num)
     (by decide)⟩

/-- Claim C8: with no previous frame every row index is redrawn; with a
previous frame of the same height, a row index is redrawn exactly when the
previous and current rows differ as glyph sequences — in particular the diff
of a frame against itself redraws nothing. -/
theorem C8_frame_diff (prev cur : Frame) (i : ℕ) (hlen : prev.length = cur.length) :
    diff_rows none cur = List.range cur.length ∧
    (i ∈ diff_rows (some prev) cur ↔
      i < cur.length ∧ prev.getD i [] ≠ cur.getD i []) ∧
    diff_rows (some cur) cur = [] := by
  refine ⟨rfl, ?_, ?_⟩
  · simp only [diff_rows]
    by_cases hp : prev = []
    · have hcur : cur = [] := by
        subst hp
        exact List.length_eq_zero.mp hlen.symm
      subst hcur
      simp [hp]
    · rw [if_neg hp]
      simp [List.mem_filter, List.mem_range, and_comm]
  · simp only [diff_rows]
    by_cases hp : cur = []
    · simp [hp]
    · rw [if_neg hp]
      simp

/-- Witness for C8 on two 2-row frames differing exactly in row 1. -/
theorem C8_frame_diff_witness :
    ([[' '], ['#']] : Frame).length = ([[' '], [' ']] : Frame).length ∧
    (diff_rows none [[' '], [' ']] = List.range ([[' '], [' ']] : Frame).length ∧
     (1 ∈ diff_rows (some [[' '], ['#']]) [[' '], [' ']] ↔
        1 < ([[' '], [' ']] : Frame).length ∧
        ([[' '], ['#']] : Frame).getD 1 [] ≠ ([[' '], [' ']] : Frame).getD 1 []) ∧
     diff_rows (some [[' '], [' ']]) [[' '], [' ']] = []) :=
  ⟨rfl, C8_frame_diff [[' '], ['#']] [[' '], [' ']] 1 rfl⟩

lemma linspace_two : linspace (-90) 90 (1 * 2) = [(-90 : ℚ), 90] := by
  norm_num [linspace, List.range_succ]

lemma linspace_four : linspace (-180) 180 (2 * 2) = [(-180 : ℚ), -60, 60, 180] := by
  norm_num [linspace, List.range_succ]

lemma rasterize_60_shift0 : rasterize land_only_at_60 0 2 1 = [[' ', '#']] := by
  unfold rasterize
  rw [linspace_two, linspace_four]
  norm_num [land_only_at_60, lat_lon_to_screen, lon_shifted, pymod, pyint, setCell]
  decide

lemma rasterize_60_shift180 : rasterize land_only_at_60 180 2 1 = [['#', ' ']] := by
  unfold rasterize
  rw [linspace_two, linspace_four]
  norm_num [land_only_at_60, lat_lon_to_screen, lon_shifted, pymod, pyint, setCell]
  decide

/-- Claim C2 fails on the code: during cache population `generate_globe`
passes the live `longitude_shift` — not 0 — to `lat_lon_to_screen` (line 52),
so the grid stored in the cache depends on the rotation offset of the
populating call.  With land exactly at sampled longitude 60, width 2,
height 1, populating the empty cache at rotation 0 caches `[[' ', '#']]`
while populating at rotation 180 caches `[['#', ' ']]`. -/
theorem C2_cached_grid_depends_on_rotation :
    ((generate_globe land_only_at_60 0 2 1 empty_cache).2 (2, 1)) ≠
      ((generate_globe land_only_at_60 180 2 1 empty_cache).2 (2, 1)) := by
  simp [generate_globe, empty_cache, rasterize_60_shift0, rasterize_60_shift180]
